import Mathlib

/-!
Verification of the Event & Participation Manager, Roster Renderer and
Recurrence Scheduler of the football coordination bot (`src/bot.py`).

The persistent store (two sqlite tables, `events` and `players`) is embedded
as two Lean lists; every DB helper of `bot.py` becomes a pure function on
that state.  Timestamps that the code obtains from the wall clock
(`datetime.now().timestamp()`, the sqlite `CURRENT_TIMESTAMP` default of
`joined_at`) are passed in explicitly as parameters.  sqlite stores both
`time` columns as ISO-8601 text and compares them as text; for the fixed
`datetime.isoformat()` format this text order coincides with chronological
order, so the embedding compares timestamps numerically (`toMicros`).
-/

namespace FootballBot

/-- A local wall-clock datetime, mirroring Python's naive `datetime`:
`day` is the number of days since 1970-01-01 in the proleptic Gregorian
calendar (may be negative), the remaining fields are the time of day. -/
structure LDT where
  day : Int
  hour : Nat
  minute : Nat
  second : Nat
  micro : Nat
deriving DecidableEq, Repr

/-- Total number of microseconds represented by an `LDT`; the comparison
key that mirrors both `datetime` comparison and sqlite's text comparison
of `isoformat()` strings. -/
def toMicros (t : LDT) : Int :=
  ((((t.day * 24 + t.hour) * 60 + t.minute) * 60 + t.second)) * 1000000 + t.micro

/-- Inverse of `toMicros`: rebuild an `LDT` from a microsecond count.
Used to embed Python `datetime - timedelta` arithmetic. -/
def ldtOfMicros (n : Int) : LDT :=
  { day := n / 86400000000
    hour := (n / 3600000000 % 24).toNat
    minute := (n / 60000000 % 60).toNat
    second := (n / 1000000 % 60).toNat
    micro := (n % 1000000).toNat }

/-- `datetime.weekday()`: Monday = 0 … Sunday = 6.  1970-01-01 was a
Thursday (= 3). -/
def weekday (t : LDT) : Int := (t.day + 3) % 7

/-- Days since 1970-01-01 of the Gregorian date `y-m-d`
(Howard Hinnant's `days_from_civil`), embedding `date.toordinal`
up to the constant offset. -/
def daysFromCivil (y m d : Int) : Int :=
  let y2 := if m ≤ 2 then y - 1 else y
  let era := (if 0 ≤ y2 then y2 else y2 - 399) / 400
  let yoe := y2 - era * 400
  let mp := (m + 9) % 12
  let doy := (153 * mp + 2) / 5 + d - 1
  let doe := yoe * 365 + yoe / 4 - yoe / 100 + doy
  era * 146097 + doe - 719468

/-- Gregorian date `(y, m, d)` of a day count since 1970-01-01
(Howard Hinnant's `civil_from_days`). -/
def civilFromDays (z0 : Int) : Int × Int × Int :=
  let z := z0 + 719468
  let era := (if 0 ≤ z then z else z - 146096) / 146097
  let doe := z - era * 146097
  let yoe := (doe - doe / 1460 + doe / 36524 - doe / 146096) / 365
  let y := yoe + era * 400
  let doy := doe - (365 * yoe + yoe / 4 - yoe / 100)
  let mp := (5 * doy + 2) / 153
  let d := doy - (153 * mp + 2) / 5 + 1
  let m := if mp < 10 then mp + 3 else mp - 9
  (if m ≤ 2 then y + 1 else y, m, d)

/-- Convenience constructor: local datetime `y-m-d hh:mm:00.000000`. -/
def mkLDT (y m d : Int) (hh mm : Nat) : LDT :=
  ⟨daysFromCivil y m d, hh, mm, 0, 0⟩

/-- A row of the `events` table. -/
structure Event where
  id : Int
  time : LDT
  place : String
  isActive : Bool
deriving DecidableEq, Repr

/-- A row of the `players` table (participations). `joinedAt` is the
timestamp sqlite assigns through the `DEFAULT CURRENT_TIMESTAMP` of
`joined_at` at insertion time. -/
structure Player where
  eventId : Int
  userId : Int
  username : Option String
  fullName : String
  extraCount : Int
  going : Bool
  joinedAt : Int
deriving DecidableEq, Repr

/-- The persistent state: the two sqlite tables. -/
structure DB where
  events : List Event
  players : List Player
deriving DecidableEq, Repr

def emptyDB : DB := ⟨[], []⟩

def DEFAULT_PLACE : String := "Chikovani St."

def TIMEZONE_SHIFT : Int := 4

/-- `create_event`: the id is `str(datetime.now().timestamp())`, a
deterministic function of the clock reading; distinct microsecond readings
give distinct float timestamps (all realistic values fit in a double's
53-bit mantissa) and hence distinct strings, so the embedding uses the
microsecond reading `nowTs` itself as the id.  `id` is the `TEXT PRIMARY
KEY` of `events`: inserting a duplicate raises `IntegrityError`, embedded
as `none`. -/
def create_event (db : DB) (nowTs : Int) (event_dt : LDT) (place : String) :
    Option (Int × DB) :=
  let event_id := nowTs
  if db.events.any (fun e => e.id == event_id) then none
  else some (event_id,
    { db with events := db.events ++ [⟨event_id, event_dt, place, true⟩] })

/-- `delete_event`: `DELETE FROM players WHERE event_id=?` then
`DELETE FROM events WHERE id=?`, in one transaction. -/
def delete_event (db : DB) (event_id : Int) : DB :=
  { events := db.events.filter (fun e => !(e.id == event_id))
    players := db.players.filter (fun p => !(p.eventId == event_id)) }

/-- `get_event`: `SELECT … FROM events WHERE id=?`, first row or `None`. -/
def get_event (db : DB) (event_id : Int) : Option Event :=
  db.events.find? (fun e => e.id == event_id)

/-- Order of the SQL `ORDER BY time ASC`. -/
def eventLe (a b : Event) : Prop := toMicros a.time ≤ toMicros b.time

instance : DecidableRel eventLe := fun a b => Int.decLe _ _

instance : IsTotal Event eventLe := ⟨fun a b => Int.le_total _ _⟩

instance : IsTrans Event eventLe := ⟨fun _ _ _ => Int.le_trans⟩

/-- `get_upcoming_events`: `now` stands for the
`datetime.utcnow() + timedelta(hours=TIMEZONE_SHIFT)` the code computes;
`SELECT … WHERE is_active=1 AND time >= ? ORDER BY time ASC LIMIT ?`. -/
def get_upcoming_events (db : DB) (now : LDT) (limit : Nat) : List Event :=
  (List.insertionSort eventLe
    (db.events.filter (fun e => e.isActive && decide (toMicros now ≤ toMicros e.time)))).take
    limit

/-- `get_nearest_event`. -/
def get_nearest_event (db : DB) (now : LDT) : Option Event :=
  (get_upcoming_events db now 1).head?

/-- `upsert_participation`: `DELETE FROM players WHERE event_id=? AND
user_id=?` then `INSERT INTO players …`, in one transaction; `nowTs` is the
`CURRENT_TIMESTAMP` sqlite assigns to `joined_at`.  No check that the event
exists. -/
def upsert_participation (db : DB) (event_id user_id : Int)
    (username : Option String) (full_name : String) (going : Bool)
    (extra_count : Int) (nowTs : Int) : DB :=
  { db with players :=
      db.players.filter (fun p => !(p.eventId == event_id && p.userId == user_id))
      ++ [⟨event_id, user_id, username, full_name, extra_count, going, nowTs⟩] }

/-- Order of the SQL `ORDER BY joined_at`. -/
def playerLe (a b : Player) : Prop := a.joinedAt ≤ b.joinedAt

instance : DecidableRel playerLe := fun a b => Int.decLe _ _

instance : IsTotal Player playerLe := ⟨fun a b => Int.le_total _ _⟩

instance : IsTrans Player playerLe := ⟨fun _ _ _ => Int.le_trans⟩

/-- `list_players`: `SELECT … FROM players WHERE event_id=? ORDER BY
joined_at`. -/
def list_players (db : DB) (event_id : Int) : List Player :=
  List.insertionSort playerLe (db.players.filter (fun p => p.eventId == event_id))

/-- Two-digit zero-padded decimal, as in `strftime` `%d`, `%H`, `%M`. -/
def pad2 (n : Int) : String :=
  if 0 ≤ n ∧ n < 10 then "0" ++ toString n else toString n

def weekdayAbbrev (w : Int) : String :=
  ["Mon", "Tue", "Wed", "Thu", "Fri", "Sat", "Sun"].getD w.toNat "???"

def monthAbbrev (m : Int) : String :=
  ["Jan", "Feb", "Mar", "Apr", "May", "Jun", "Jul", "Aug", "Sep", "Oct",
    "Nov", "Dec"].getD (m - 1).toNat "???"

/-- `fmt_dt`: `dt.strftime("%a, %d %b %H:%M")`, e.g. "Fri, 27 Sep 21:00". -/
def fmt_dt (t : LDT) : String :=
  let d := (civilFromDays t.day).2.2
  let mon := monthAbbrev (civilFromDays t.day).2.1
  let wd := weekdayAbbrev (weekday t)
  let dd := pad2 d
  let hh := pad2 t.hour
  let mm := pad2 t.minute
  s!"{wd}, {dd} {mon} {hh}:{mm}"

/-- Display name resolution of `render_event`:
`f"@{username}" if username else (full_name or "No name")` — both `None`
and the empty string are falsy in Python. -/
def displayName (p : Player) : String :=
  if p.username.getD "" ≠ "" then "@" ++ p.username.getD ""
  else if p.fullName ≠ "" then p.fullName else "No name"

/-- One line of the "Going" section: `f"✅ {name}{extra}"` with
`extra = f" +{extra_count}" if extra_count else ""`. -/
def goingLine (p : Player) : String :=
  let name := displayName p
  let extra := if p.extraCount ≠ 0 then s!" +{p.extraCount}" else ""
  s!"✅ {name}{extra}"

/-- One line of the "Not going" section: `f"❌ {name}"`. -/
def notGoingLine (p : Player) : String :=
  let name := displayName p
  s!"❌ {name}"

/-- The "Going" section header: `f"<b>Going ({len(going)}/20)</b>:"`. -/
def goingHeader (n : Nat) : String := s!"<b>Going ({n}/20)</b>:"

/-- The `lines` list `render_event` assembles for an existing event,
given the result of `list_players`. -/
def renderLines (ev : Event) (players : List Player) : List String :=
  let going := players.filter (fun p => p.going)
  let notGoing := players.filter (fun p => !p.going)
  let k := notGoing.length
  ["⚽ <b>Game</b>", s!"🕒 {fmt_dt ev.time}", s!"📍 {ev.place}", "",
    goingHeader going.length]
  ++ (if going.isEmpty then ["Nobody yet 👀"] else going.map goingLine)
  ++ ["", s!"<b>Not going ({k})</b>:"]
  ++ (if notGoing.isEmpty then ["Nobody declined."] else notGoing.map notGoingLine)

/-- `render_event`. -/
def render_event (db : DB) (event_id : Int) : String :=
  match get_event db event_id with
  | none => "Event not found."
  | some ev => String.intercalate "\n" (renderLines ev (list_players db event_id))

/-- Substring test on strings, as character lists. -/
def strContains (s pat : String) : Bool :=
  (List.range (s.data.length + 1)).any fun i => pat.data.isPrefixOf (s.data.drop i)

/-- The recurrence rule of `scheduled_create_48h` as a pure function of
local now (`datetime.utcnow() + timedelta(hours=TIMEZONE_SHIFT)`): the
target datetime of the event to create, or `none` when the tick is a
no-op.  Mirrors the two weekday branches and the final
`target.replace(hour=21, minute=0, second=0, microsecond=0)`. -/
def target48h (nowLocal : LDT) : Option LDT :=
  let w := weekday nowLocal
  if w = 2 then
    let deltaDays := 4 - w
    some { nowLocal with day := nowLocal.day + deltaDays,
                         hour := 21, minute := 0, second := 0, micro := 0 }
  else if w = 5 then
    let deltaDays := (0 - w) % 7
    some { nowLocal with day := nowLocal.day + deltaDays,
                         hour := 21, minute := 0, second := 0, micro := 0 }
  else
    none

/-- Outcome of one scheduler tick. -/
structure SchedResult where
  db : DB
  eventId : Int
  eventDt : LDT
  reminderAt : LDT
  broadcast : String
deriving DecidableEq, Repr

inductive SchedOut where
  | noop
  | err
  | created (r : SchedResult)
deriving DecidableEq, Repr

/-- `scheduled_create_48h`: on a trigger weekday it creates the event at
the target datetime, renders and broadcasts it, and schedules the one-shot
`send_reminder` job at `event_dt - timedelta(hours=3)`.  `nowLocal` stands
for `utcnow() + 4h`, `nowTs` for the `datetime.now().timestamp()` reading
inside `create_event`.  `err` is the uncaught `IntegrityError` of a
duplicate event id. -/
def scheduled_create_48h (db : DB) (nowLocal : LDT) (nowTs : Int) : SchedOut :=
  match target48h nowLocal with
  | none => .noop
  | some event_dt =>
    match create_event db nowTs event_dt DEFAULT_PLACE with
    | none => .err
    | some (event_id, db2) =>
      .created
        { db := db2
          eventId := event_id
          eventDt := event_dt
          reminderAt := ldtOfMicros (toMicros event_dt - 3 * 3600 * 1000000)
          broadcast := "⚽ <b>New game created!</b>\n\n" ++ render_event db2 event_id }

/-- `send_reminder`, run against the state `db` current when the job
fires: re-renders the event and broadcasts the result. -/
def send_reminder (db : DB) (event_id : Int) : String :=
  "⏰ Reminder: Game soon!\n\n" ++ render_event db event_id

/-- The arguments of one `upsert_participation` call by a fixed user for a
fixed event; `ts` is the `CURRENT_TIMESTAMP` of that call. -/
structure Call where
  username : Option String
  fullName : String
  going : Bool
  extra : Int
  ts : Int
deriving DecidableEq, Repr

/-- The `players` row such a call inserts. -/
def mkPlayer (e u : Int) (c : Call) : Player :=
  ⟨e, u, c.username, c.fullName, c.extra, c.going, c.ts⟩

def applyCall (e u : Int) (db : DB) (c : Call) : DB :=
  upsert_participation db e u c.username c.fullName c.going c.extra c.ts

/-- A sequence of RSVP calls by user `u` for event `e`. -/
def upsertSeq (db : DB) (e u : Int) (cs : List Call) : DB :=
  cs.foldl (applyCall e u) db

/-- Sample states used by witnesses and counterexamples. -/
def evA : Event := ⟨100, mkLDT 2025 9 26 21 0, DEFAULT_PLACE, true⟩

def dbA : DB := ⟨[evA], []⟩

/-- Second sample state: two earlier participations of event `100`. -/
def dbB : DB :=
  ⟨[evA], [⟨100, 7, some "alice", "Alice A", 0, true, 1⟩,
            ⟨100, 8, none, "Bob B", 0, false, 2⟩]⟩

/-- Third sample state: one GOING participant with a username and
`extraCount = 2`. -/
def dbC : DB := ⟨[evA], [⟨100, 7, some "alice", "Alice A", 2, true, 1⟩]⟩

/-- The concrete outcome of the Wednesday 2025-09-24 21:00 tick on the
empty state (day 20357 is 2025-09-26). -/
def r0 : SchedResult :=
  { db := ⟨[⟨777, ⟨20357, 21, 0, 0, 0⟩, DEFAULT_PLACE, true⟩], []⟩
    eventId := 777
    eventDt := ⟨20357, 21, 0, 0, 0⟩
    reminderAt := ⟨20357, 18, 0, 0, 0⟩
    broadcast := "⚽ <b>New game created!</b>\n\n⚽ <b>Game</b>\n🕒 Fri, 26 Sep 21:00\n📍 Chikovani St.\n\n<b>Going (0/20)</b>:\nNobody yet 👀\n\n<b>Not going (0)</b>:\nNobody declined." }

/-- States reached by the two successful `create_event` calls of the C9
witness. -/
def dbW1 : DB := ⟨[⟨100, mkLDT 2025 9 26 21 0, DEFAULT_PLACE, true⟩], []⟩

def dbW2 : DB :=
  ⟨[⟨100, mkLDT 2025 9 26 21 0, DEFAULT_PLACE, true⟩,
    ⟨200, mkLDT 2025 9 29 21 0, DEFAULT_PLACE, true⟩], []⟩

set_option maxRecDepth 40000

/-- After one upsert, the rows for the pair `(e, u)` are exactly the
freshly inserted one. -/
theorem filter_pair_upsert (db : DB) (e u : Int) (un : Option String)
    (fn : String) (g : Bool) (x t : Int) :
    (upsert_participation db e u un fn g x t).players.filter
      (fun p => p.eventId == e && p.userId == u) = [⟨e, u, un, fn, x, g, t⟩] := by
  simp [upsert_participation, List.filter_append, List.filter_filter]

/-- C1: any sequence of RSVP calls by one user for one event leaves exactly
one participation row for the pair, carrying the status, extra count (and
timestamp) of the last call; and a repeated call with identical arguments
produces the same final state as making it once. -/
theorem upsert_replacement (db : DB) (e u : Int) (cs : List Call)
    (clast : Call) (h : cs.getLast? = some clast) (un : Option String)
    (fn : String) (g : Bool) (x t1 t2 : Int) :
    (upsertSeq db e u cs).players.filter
        (fun p => p.eventId == e && p.userId == u) = [mkPlayer e u clast]
  ∧ upsert_participation (upsert_participation db e u un fn g x t1) e u un fn g x t2
      = upsert_participation db e u un fn g x t2 := by
  constructor
  · rcases List.eq_nil_or_concat cs with rfl | ⟨L, b, rfl⟩
    · simp at h
    · rw [List.concat_eq_append] at h
      have hb : b = clast := by
        rw [List.getLast?_concat] at h
        exact Option.some.inj h
      subst hb
      rw [List.concat_eq_append, upsertSeq, List.foldl_append, List.foldl_cons,
        List.foldl_nil]
      exact filter_pair_upsert _ e u _ _ _ _ _
  · have hev : (upsert_participation (upsert_participation db e u un fn g x t1)
        e u un fn g x t2).events = (upsert_participation db e u un fn g x t2).events := rfl
    have hpl : (upsert_participation (upsert_participation db e u un fn g x t1)
        e u un fn g x t2).players = (upsert_participation db e u un fn g x t2).players := by
      simp [upsert_participation, List.filter_append, List.filter_filter]
    cases hdb : upsert_participation (upsert_participation db e u un fn g x t1)
        e u un fn g x t2
    cases hdb2 : upsert_participation db e u un fn g x t2
    simp_all

/-- Witness for C1: "going +2" then "going +1" by the same user leaves one
record with `extraCount = 1`. -/
theorem upsert_replacement_witness :
    ([⟨some "alice", "Alice A", true, 2, 10⟩,
      ⟨some "alice", "Alice A", true, 1, 11⟩] : List Call).getLast?
        = some ⟨some "alice", "Alice A", true, 1, 11⟩
  ∧ ((upsertSeq dbA 100 7 [⟨some "alice", "Alice A", true, 2, 10⟩,
        ⟨some "alice", "Alice A", true, 1, 11⟩]).players.filter
          (fun p => p.eventId == 100 && p.userId == 7)
        = [mkPlayer 100 7 ⟨some "alice", "Alice A", true, 1, 11⟩]
      ∧ upsert_participation (upsert_participation dbA 100 7 (some "alice")
            "Alice A" true 1 10) 100 7 (some "alice") "Alice A" true 1 11
          = upsert_participation dbA 100 7 (some "alice") "Alice A" true 1 11) :=
  ⟨by decide,
    upsert_replacement dbA 100 7 _ _ (by decide) (some "alice") "Alice A" true 1 10 11⟩

/-- C5 counterexample: event `1` does not exist, yet `upsert_participation`
succeeds (it has no failure path at all) and creates a participation
record for it, contrary to "fails with NotFound rather than creating a
participation record". -/
theorem upsert_no_notfound_cex :
    get_event emptyDB 1 = none
  ∧ (upsert_participation emptyDB 1 42 (some "alice") "Alice" true 2 10).players
      = [⟨1, 42, some "alice", "Alice", 2, true, 10⟩] := by decide

/-- C5 (amended): `upsert_participation` performs no existence check and
signals no failure: even when the referenced event does not exist, the call
succeeds and inserts the participation record (and the event remains
nonexistent). -/
theorem upsert_no_notfound (db : DB) (e u : Int) (un : Option String)
    (fn : String) (g : Bool) (x t : Int) (h : get_event db e = none) :
    get_event (upsert_participation db e u un fn g x t) e = none
  ∧ (upsert_participation db e u un fn g x t).players.filter
      (fun p => p.eventId == e && p.userId == u) = [⟨e, u, un, fn, x, g, t⟩] :=
  ⟨h, filter_pair_upsert db e u un fn g x t⟩

/-- Witness for C5's amended theorem at a concrete nonexistent event id. -/
theorem upsert_no_notfound_witness :
    get_event dbA 3 = none
  ∧ (get_event (upsert_participation dbA 3 8 none "Bob B" false 0 12) 3 = none
      ∧ (upsert_participation dbA 3 8 none "Bob B" false 0 12).players.filter
          (fun p => p.eventId == 3 && p.userId == 8)
            = [⟨3, 8, none, "Bob B", 0, false, 12⟩]) :=
  ⟨by decide, upsert_no_notfound dbA 3 8 none "Bob B" false 0 12 (by decide)⟩

/-- C4 counterexample: event `100` exists in `dbA`; after `delete_event`
it does not exist at all — the code hard-deletes the row, it does not mark
the event inactive (an inactive event would still be returned by
`get_event` with `isActive = false`). -/
theorem delete_event_cex :
    get_event dbA 100 = some evA
  ∧ get_event (delete_event dbA 100) 100 = none := by decide

/-- C4 (amended): `delete_event` hard-deletes: it removes every
participation record of the event and the event row itself (afterwards no
event row with that id remains, rather than one with `isActive = false`),
and it is idempotent — repeating the call, including on an already-deleted
or nonexistent id, is a no-op, not an error. -/
theorem delete_event_spec (db : DB) (event_id : Int) :
    (delete_event db event_id).events.all (fun e => !(e.id == event_id)) = true
  ∧ (delete_event db event_id).players.all (fun p => !(p.eventId == event_id)) = true
  ∧ delete_event (delete_event db event_id) event_id = delete_event db event_id := by
  refine ⟨?_, ?_, ?_⟩
  · exact List.all_eq_true.2 fun e he => (List.mem_filter.1 he).2
  · exact List.all_eq_true.2 fun p hp => (List.mem_filter.1 hp).2
  · simp [delete_event, List.filter_filter]

/-- C10: deletion is a hard delete in one transaction: afterwards
`get_event` finds nothing and `list_players` is empty for that id, and on
an id matching no event and no participation the whole operation changes
nothing. -/
theorem delete_event_hard (db : DB) (event_id other : Int)
    (h1 : db.events.all (fun e => !(e.id == other)) = true)
    (h2 : db.players.all (fun p => !(p.eventId == other)) = true) :
    get_event (delete_event db event_id) event_id = none
  ∧ list_players (delete_event db event_id) event_id = []
  ∧ delete_event db other = db := by
  refine ⟨?_, ?_, ?_⟩
  · exact List.find?_eq_none.2 fun e he => by
      simpa using (List.mem_filter.1 he).2
  · have : (delete_event db event_id).players.filter
        (fun p => p.eventId == event_id) = [] := by
      simp [delete_event, List.filter_filter]
    rw [list_players, this]
    rfl
  · have he : db.events.filter (fun e => !(e.id == other)) = db.events :=
      List.filter_eq_self.2 fun e he => List.all_eq_true.1 h1 e he
    have hp : db.players.filter (fun p => !(p.eventId == other)) = db.players :=
      List.filter_eq_self.2 fun p hp => List.all_eq_true.1 h2 p hp
    cases db
    simp only [delete_event] at he hp ⊢
    rw [he, hp]

/-- Witness for C10 on a concrete state: deleting event `100` empties it,
and deleting the unknown id `99` changes nothing. -/
theorem delete_event_hard_witness :
    dbA.events.all (fun e => !(e.id == 99)) = true
  ∧ dbA.players.all (fun p => !(p.eventId == 99)) = true
  ∧ (get_event (delete_event dbA 100) 100 = none
      ∧ list_players (delete_event dbA 100) 100 = []
      ∧ delete_event dbA 99 = dbA) :=
  ⟨by decide, by decide, delete_event_hard dbA 100 99 (by decide) (by decide)⟩

/-- C2: `get_upcoming_events` returns at most `limit` events, each of them
an active stored event whose `time` is at or after the local now, in
ascending `time` order. -/
theorem upcoming_events_spec (db : DB) (now : LDT) (limit : Nat) :
    (get_upcoming_events db now limit).length ≤ limit
  ∧ (get_upcoming_events db now limit).all
      (fun e => e.isActive && decide (toMicros now ≤ toMicros e.time)) = true
  ∧ List.Sorted eventLe (get_upcoming_events db now limit)
  ∧ get_upcoming_events db now limit ⊆ db.events := by
  refine ⟨?_, ?_, ?_, ?_⟩
  · rw [get_upcoming_events, List.length_take]
    exact Nat.min_le_left _ _
  · refine List.all_eq_true.2 fun e he => ?_
    have h1 : e ∈ List.insertionSort eventLe
        (db.events.filter (fun e => e.isActive && decide (toMicros now ≤ toMicros e.time))) :=
      List.take_subset _ _ he
    exact (List.mem_filter.1 ((List.mem_insertionSort eventLe).1 h1)).2
  · exact ((List.sorted_insertionSort eventLe _).sublist (List.take_sublist _ _))
  · intro e he
    have h1 := List.take_subset _ _ he
    exact List.mem_of_mem_filter ((List.mem_insertionSort eventLe).1 h1)

/-- C3: the recurrence rule is a deterministic function of local now:
on Wednesday (2) and Saturday (5) the target is the local date + 2 days at
21:00:00.000000, on any other weekday the tick is a no-op; concretely,
Wed 2025-09-24 yields 2025-09-26 21:00, Sat 2025-09-27 yields
2025-09-29 21:00, and Tue 2025-09-23 is a no-op (no event created). -/
theorem recurrence_rule (nowLocal : LDT) (db : DB) (nowTs : Int) :
    target48h nowLocal =
      (if weekday nowLocal = 2 ∨ weekday nowLocal = 5 then
        some ⟨nowLocal.day + 2, 21, 0, 0, 0⟩ else none)
  ∧ target48h ⟨daysFromCivil 2025 9 24, 21, 0, 0, 0⟩
      = some ⟨daysFromCivil 2025 9 26, 21, 0, 0, 0⟩
  ∧ target48h ⟨daysFromCivil 2025 9 27, 21, 0, 0, 0⟩
      = some ⟨daysFromCivil 2025 9 29, 21, 0, 0, 0⟩
  ∧ target48h ⟨daysFromCivil 2025 9 23, 21, 0, 0, 0⟩ = none
  ∧ scheduled_create_48h db ⟨daysFromCivil 2025 9 23, 21, 0, 0, 0⟩ nowTs
      = SchedOut.noop := by
  refine ⟨?_, by decide, by decide, by decide, ?_⟩
  · by_cases h2 : weekday nowLocal = 2
    · simp [target48h, h2]
    · by_cases h5 : weekday nowLocal = 5
      · rw [target48h]
        simp only [h5, h2]
        norm_num
      · simp [target48h, h2, h5]
  · rw [scheduled_create_48h]
    have : target48h ⟨daysFromCivil 2025 9 23, 21, 0, 0, 0⟩ = none := by decide
    rw [this]

/-- In a list sorted by `joinedAt`, an element strictly later than every
other element is the last one. -/
theorem sorted_getLast?_max (S : List Player) (hS : List.Sorted playerLe S)
    (P : Player) (hP : P ∈ S)
    (hmax : ∀ q ∈ S, q ≠ P → q.joinedAt < P.joinedAt) :
    S.getLast? = some P := by
  induction S with
  | nil => cases hP
  | cons a S ih =>
    cases S with
    | nil =>
      have : P = a := by simpa using hP
      subst this
      rfl
    | cons b rest =>
      have hle : playerLe a b := List.rel_of_sorted_cons hS b (by simp)
      have hPmem : P ∈ b :: rest := by
        rcases List.mem_cons.1 hP with rfl | hP2
        · by_cases hb : b = P
          · rw [hb]; exact List.mem_cons_self _ _
          · have hlt := hmax b (by simp) hb
            simp only [playerLe] at hle
            omega
        · exact hP2
      rw [List.getLast?_cons_cons]
      exact ih (List.Sorted.of_cons hS) hPmem
        (fun q hq => hmax q (List.mem_cons_of_mem _ hq))

/-- C6: `list_players` returns participations in non-decreasing `joinedAt`
order, and a (re-)RSVP whose refreshed `joinedAt` is later than every
existing participation of the event moves that user to the end of the
order. -/
theorem list_players_order (db : DB) (e u : Int) (un : Option String)
    (fn : String) (g : Bool) (x t : Int)
    (h : ∀ p ∈ db.players, p.eventId = e → p.joinedAt < t) :
    List.Sorted playerLe (list_players db e)
  ∧ (list_players (upsert_participation db e u un fn g x t) e).getLast?
      = some ⟨e, u, un, fn, x, g, t⟩ := by
  refine ⟨List.sorted_insertionSort playerLe _, ?_⟩
  have hfilter : (upsert_participation db e u un fn g x t).players.filter
      (fun p => p.eventId == e)
      = (db.players.filter (fun p => !(p.eventId == e && p.userId == u))).filter
          (fun p => p.eventId == e) ++ [⟨e, u, un, fn, x, g, t⟩] := by
    simp [upsert_participation, List.filter_append]
  rw [list_players, hfilter]
  apply sorted_getLast?_max _ (List.sorted_insertionSort playerLe _)
  · rw [List.mem_insertionSort]
    exact List.mem_append_right _ (by simp)
  · intro q hq hqP
    rcases List.mem_append.1 ((List.mem_insertionSort playerLe).1 hq) with hqL | hqP2
    · have hq3 := List.mem_filter.1 hqL
      have hq4 := List.mem_filter.1 hq3.1
      exact h q hq4.1 (by simpa using hq3.2)
    · exact absurd (by simpa using hqP2) hqP

/-- Witness for C6: Alice re-RSVPs at time `5`, later than both existing
records, and ends up last in the roster order. -/
theorem list_players_order_witness :
    (∀ p ∈ dbB.players, p.eventId = 100 → p.joinedAt < 5)
  ∧ (List.Sorted playerLe (list_players dbB 100)
      ∧ (list_players (upsert_participation dbB 100 7 (some "alice") "Alice A"
            true 1 5) 100).getLast?
          = some ⟨100, 7, some "alice", "Alice A", 1, true, 5⟩) :=
  ⟨by decide, list_players_order dbB 100 7 (some "alice") "Alice A" true 1 5
    (by decide)⟩

/-- C7: the roster renderer is deterministic over the event and its
participations: the displayed going count is the number of GOING
participants (extra guests annotated per line, never counted); with zero
participants the output contains the "Nobody yet" and "Nobody declined"
sentinels; a GOING participant with a username and `extraCount = 2` is
rendered as `@username +2`. -/
theorem render_event_spec (db : DB) (e : Int) (ev : Event)
    (h : get_event db e = some ev) :
    render_event db e = String.intercalate "\n" (renderLines ev (list_players db e))
  ∧ goingHeader ((list_players db e).filter (fun p => p.going)).length
      ∈ renderLines ev (list_players db e)
  ∧ strContains (render_event dbA 100) "Nobody yet" = true
  ∧ strContains (render_event dbA 100) "Nobody declined" = true
  ∧ strContains (render_event dbC 100) "@alice +2" = true := by
  refine ⟨?_, ?_, by decide, by decide, by decide⟩
  · rw [render_event, h]
  · simp [renderLines]

/-- Witness for C7 at the concrete one-participant state. -/
theorem render_event_spec_witness :
    get_event dbC 100 = some evA
  ∧ (render_event dbC 100
        = String.intercalate "\n" (renderLines evA (list_players dbC 100))
      ∧ goingHeader ((list_players dbC 100).filter (fun p => p.going)).length
          ∈ renderLines evA (list_players dbC 100)
      ∧ strContains (render_event dbA 100) "Nobody yet" = true
      ∧ strContains (render_event dbA 100) "Nobody declined" = true
      ∧ strContains (render_event dbC 100) "@alice +2" = true) :=
  ⟨by decide, render_event_spec dbC 100 evA (by decide)⟩

/-- `ldtOfMicros` is a right inverse of `toMicros`. -/
theorem toMicros_ldtOfMicros (n : Int) : toMicros (ldtOfMicros n) = n := by
  simp only [toMicros, ldtOfMicros]
  omega

/-- C8: whenever a scheduler tick creates an event, the one-shot reminder
it schedules is set for exactly the event's datetime minus 3 hours, and
when the reminder fires it re-renders the event against the then-current
state and broadcasts that. -/
theorem reminder_spec (db : DB) (nowLocal : LDT) (nowTs : Int)
    (r : SchedResult)
    (h : scheduled_create_48h db nowLocal nowTs = SchedOut.created r)
    (db2 : DB) :
    toMicros r.reminderAt = toMicros r.eventDt - 3 * 3600 * 1000000
  ∧ send_reminder db2 r.eventId
      = "⏰ Reminder: Game soon!\n\n" ++ render_event db2 r.eventId := by
  refine ⟨?_, rfl⟩
  cases ht : target48h nowLocal with
  | none =>
    simp only [scheduled_create_48h, ht] at h
    cases h
  | some event_dt =>
    cases hc : create_event db nowTs event_dt DEFAULT_PLACE with
    | none =>
      simp only [scheduled_create_48h, ht, hc] at h
      cases h
    | some pr =>
      obtain ⟨event_id, db3⟩ := pr
      simp only [scheduled_create_48h, ht, hc] at h
      cases h
      exact toMicros_ldtOfMicros _

/-- Witness for C8: the Wednesday tick schedules the reminder for Friday
18:00, three hours before the 21:00 game. -/
theorem reminder_spec_witness :
    scheduled_create_48h emptyDB ⟨daysFromCivil 2025 9 24, 21, 0, 0, 0⟩ 777
      = SchedOut.created r0
  ∧ (toMicros r0.reminderAt = toMicros r0.eventDt - 3 * 3600 * 1000000
      ∧ send_reminder emptyDB r0.eventId
          = "⏰ Reminder: Game soon!\n\n" ++ render_event emptyDB r0.eventId) :=
  ⟨by decide,
    reminder_spec emptyDB ⟨daysFromCivil 2025 9 24, 21, 0, 0, 0⟩ 777 r0
      (by decide) emptyDB⟩

/-- C9 counterexample: two `create_event` calls at the same instant (the
same `datetime.now().timestamp()` reading, `100`) do not return distinct
ids: the first returns id `100`, and the second hits the `id` PRIMARY KEY
constraint and fails instead of returning a fresh id. -/
theorem create_event_same_instant_cex :
    create_event emptyDB 100 (mkLDT 2025 9 26 21 0) DEFAULT_PLACE = some (100, dbA)
  ∧ create_event dbA 100 (mkLDT 2025 9 29 21 0) DEFAULT_PLACE = none := by decide

/-- C9 (amended): the id of `create_event` is the clock timestamp of the
call, so two successful calls with distinct clock readings return distinct
ids, and a successful call preserves uniqueness of ids across all stored
events; calls at the same instant, however, do not get distinct ids — the
second insert violates the primary key and fails. -/
theorem create_event_ids (db : DB) (t1 t2 : Int) (dt1 dt2 : LDT)
    (p1 p2 : String) (i1 i2 : Int) (d1 d2 : DB)
    (h12 : t1 ≠ t2)
    (h1 : create_event db t1 dt1 p1 = some (i1, d1))
    (h2 : create_event d1 t2 dt2 p2 = some (i2, d2))
    (hnd : (db.events.map (fun e => e.id)).Nodup) :
    i1 ≠ i2 ∧ (d2.events.map (fun e => e.id)).Nodup := by
  by_cases hA : db.events.any (fun e => e.id == t1) = true
  · simp [create_event, hA] at h1
  · rw [Bool.not_eq_true] at hA
    simp only [create_event, hA, Bool.false_eq_true, if_false, Option.some.injEq,
      Prod.mk.injEq] at h1
    obtain ⟨rfl, rfl⟩ := h1
    by_cases hB : ({ db with events := db.events ++ [⟨t1, dt1, p1, true⟩] } : DB).events.any
        (fun e => e.id == t2) = true
    · simp [create_event, hB] at h2
    · rw [Bool.not_eq_true] at hB
      simp only [create_event, hB, Bool.false_eq_true, if_false, Option.some.injEq,
        Prod.mk.injEq] at h2
      obtain ⟨rfl, rfl⟩ := h2
      refine ⟨h12, ?_⟩
      rw [List.any_eq_false] at hA hB
      simp only [List.map_append, List.map_cons, List.map_nil]
      rw [List.nodup_append, List.nodup_append]
      refine ⟨⟨hnd, List.nodup_singleton _, ?_⟩, List.nodup_singleton _, ?_⟩
      · intro a ha hb
        rw [List.mem_singleton] at hb
        subst hb
        obtain ⟨e, he, rfl⟩ := List.mem_map.1 ha
        exact hA e he (by simp)
      · intro a ha hb
        rw [List.mem_singleton] at hb
        subst hb
        rcases List.mem_append.1 ha with ha2 | ha2
        · obtain ⟨e, he, rfl⟩ := List.mem_map.1 ha2
          exact hB e (List.mem_append_left _ he) (by simp)
        · rw [List.mem_singleton] at ha2
          exact h12 ha2.symm

/-- Witness for C9's amended theorem: distinct instants `100` and `200`
give the distinct ids `100` and `200`, keeping ids unique. -/
theorem create_event_ids_witness :
    (100 : Int) ≠ 200
  ∧ create_event emptyDB 100 (mkLDT 2025 9 26 21 0) DEFAULT_PLACE = some (100, dbW1)
  ∧ create_event dbW1 200 (mkLDT 2025 9 29 21 0) DEFAULT_PLACE = some (200, dbW2)
  ∧ (emptyDB.events.map (fun e => e.id)).Nodup
  ∧ ((100 : Int) ≠ 200 ∧ (dbW2.events.map (fun e => e.id)).Nodup) :=
  ⟨by decide, by decide, by decide, by decide,
    create_event_ids emptyDB 100 200 (mkLDT 2025 9 26 21 0) (mkLDT 2025 9 29 21 0)
      DEFAULT_PLACE DEFAULT_PLACE 100 200 dbW1 dbW2 (by decide) (by decide)
      (by decide) (by decide)⟩

end FootballBot
